import Mathlib

/-!
Verification of the hanzoai/extension data-aggregation snippets.

Sources embedded:
- `src/packages/dev/test-swarm/file3.py`: `process_data`, a pure function
  from a list of records to a summary mapping with keys
  `total`, `count`, `average`.
- `src/packages/dev/tests/fixtures/sample-code.py`: class `DataProcessor`
  with an internal list `data`, methods `add_item` and `get_summary`.

Modelling choices:
- A Python dict record is an association list from `String` keys to
  rational values; `dict.get k d` is lookup with default.
- Numeric values are `ℚ` (exact arithmetic; Python `total / count` is
  true division, and all spec-level expected values such as `3.5` are
  exact rationals).
- The summary dict has exactly the three keys `count`, `total`,
  `average`; it is embedded as a three-field structure.
- The imperative reading of the two functions (they receive the list /
  the object and may in principle mutate it) is embedded by explicit
  state passing: `process_data_st` and `DataProcessor.get_summary_st`
  return the result together with the state after the call, translated
  statement by statement from the source (no statement of either
  function writes to the input, so the returned state is the argument).
-/

/-- Record: a string-keyed mapping; the aggregator only inspects the
key `value`, holding a numeric (here exact rational) value. -/
def Record : Type := List (String × ℚ)

instance : DecidableEq Record := by
  unfold Record
  infer_instance

/-- Python `item.get(k, d)`: lookup `k` in the mapping, substituting the
default `d` when the key is absent. -/
def Record.get (r : Record) (k : String) (d : ℚ) : ℚ :=
  (List.lookup k r).getD d

/-- Summary: the mapping returned by both aggregation functions, with
exactly the three keys `count`, `total`, `average`. -/
structure Summary where
  count : ℕ
  total : ℚ
  average : ℚ
  deriving DecidableEq, Repr

/-- Embedding of `process_data` (file3.py, lines 5-15):
total = sum(item.get('value', 0) for item in items);
count = len(items);
average = total / count if count > 0 else 0;
return {'total': total, 'count': count, 'average': average}. -/
def process_data (items : List Record) : Summary :=
  let total := (items.map (fun item => item.get "value" 0)).sum
  let count := items.length
  let average := if count > 0 then total / (count : ℚ) else 0
  { total := total, count := count, average := average }

/-- State-passing embedding of `process_data`: the function body reads
`items` (sum, len) and builds a fresh dict; no statement mutates the
argument, so the state handed back is the argument itself. -/
def process_data_st (items : List Record) : Summary × List Record :=
  (process_data items, items)

/-- DataProcessor (sample-code.py): holds the private list `self.data`. -/
structure DataProcessor where
  data : List Record
  deriving DecidableEq

/-- Embedding of `DataProcessor.__init__`: `self.data = []`. -/
def DataProcessor.init : DataProcessor := ⟨[]⟩

/-- Embedding of `DataProcessor.add_item` (lines 11-13):
`self.data.append(item)`, i.e. the held list grows by `item` at the
end; the Python method returns `None`, so the embedding returns only
the updated state. -/
def DataProcessor.add_item (p : DataProcessor) (item : Record) : DataProcessor :=
  ⟨p.data ++ [item]⟩

/-- Embedding of `DataProcessor.get_summary` (lines 15-28):
if not self.data: return {"count": 0, "total": 0, "average": 0};
values = [item.get("value", 0) for item in self.data];
total = sum(values); count = len(values);
return {"count": count, "total": total,
        "average": total / count if count > 0 else 0}. -/
def DataProcessor.get_summary (p : DataProcessor) : Summary :=
  if p.data = [] then
    { count := 0, total := 0, average := 0 }
  else
    let values := p.data.map (fun item => item.get "value" 0)
    let total := values.sum
    let count := values.length
    { count := count, total := total,
      average := if count > 0 then total / (count : ℚ) else 0 }

/-- State-passing embedding of `get_summary`: every statement of the
method only reads `self.data`, so the state handed back is `self`
unchanged. -/
def DataProcessor.get_summary_st (p : DataProcessor) : Summary × DataProcessor :=
  (p.get_summary, p)

/-- Extraction of the numeric value of one record, as the spec words
it: the value under key `value`, substituting `0` when absent. -/
def extract (r : Record) : ℚ :=
  r.get "value" 0

/-- Concrete record with a single key `value` mapped to `q`. -/
def valRec (q : ℚ) : Record := [("value", q)]

/-- Record with no `value` key at all. -/
def emptyRec : Record := []

/-- Shared helper: `DataProcessor.get_summary` computes the same summary
as `process_data` on the held list. On the empty list both produce the
all-zero summary (the early return versus the `count > 0` guard); on a
nonempty list both compute the same count, total and average. -/
theorem get_summary_eq_process_data (p : DataProcessor) :
    p.get_summary = process_data p.data := by
  obtain ⟨l⟩ := p
  cases l with
  | nil => rfl
  | cons a t =>
    simp [DataProcessor.get_summary, process_data]

/-- Shared helper: folding `add_item` over a list of records appends
them, in order, to the held list. -/
theorem data_foldl_add_item (p : DataProcessor) (rs : List Record) :
    (rs.foldl DataProcessor.add_item p).data = p.data ++ rs := by
  induction rs generalizing p with
  | nil => simp
  | cons r t ih =>
    simp [List.foldl_cons, ih, DataProcessor.add_item]

/-- C1: for every sequence of records R, the total field of
`process_data R` equals the arithmetic sum of the extracted `value`
field of each record, a missing `value` key contributing 0. -/
theorem process_data_total_is_sum_extract (R : List Record) :
    (process_data R).total = (R.map extract).sum := rfl

/-- C2: for every sequence of records R, the count field of
`process_data R` equals the length of R. -/
theorem process_data_count_is_length (R : List Record) :
    (process_data R).count = R.length := rfl

/-- C3: for every sequence of records R, the average field of
`process_data R` is total divided by count when the count is positive,
and exactly 0 when the count is 0; the zero-count case yields 0 rather
than an error or an undefined value. -/
theorem process_data_average_guarded (R : List Record) :
    (process_data R).average =
      if (process_data R).count > 0 then
        (process_data R).total / ((process_data R).count : ℚ)
      else 0 := rfl

/-- C4: `process_data` on the empty sequence returns the summary whose
three fields count, total, average all equal 0. -/
theorem process_data_nil :
    process_data [] = { count := 0, total := 0, average := 0 } := rfl

/-- C5: every reachable state of `DataProcessor` (a fresh instance with
any list of records added so far, in order) answers `get_summary` with
exactly `process_data` of the records added so far, and in general the
summary of any state agrees with `process_data` on the held list. -/
theorem get_summary_refines_process_data (rs : List Record) (p : DataProcessor) :
    (rs.foldl DataProcessor.add_item DataProcessor.init).get_summary
        = process_data rs
      ∧ p.get_summary = process_data p.data := by
  constructor
  · rw [get_summary_eq_process_data, data_foldl_add_item]
    rfl
  · exact get_summary_eq_process_data p

/-- C6: after adding the record mapping value to 3 and then the record
mapping value to 4 to a fresh `DataProcessor`, `get_summary` returns
count 2, total 7 and average 7/2 (that is, 3.5). -/
theorem get_summary_add3_add4 :
    ((DataProcessor.init.add_item (valRec 3)).add_item (valRec 4)).get_summary
      = { count := 2, total := 7, average := 7 / 2 } := by
  simp [DataProcessor.init, DataProcessor.add_item, DataProcessor.get_summary,
    valRec, Record.get, List.lookup]
  norm_num

/-- C7: `process_data` is deterministic: two calls on the same
unmodified sequence yield identical summaries. -/
theorem process_data_deterministic (R S : List Record) (h : R = S) :
    process_data R = process_data S := by
  rw [h]

/-- C7 witness: determinism applied at a concrete one-record sequence. -/
theorem process_data_deterministic_witness :
    [valRec 10] = [valRec 10]
      ∧ process_data [valRec 10] = process_data [valRec 10] :=
  ⟨rfl, process_data_deterministic [valRec 10] [valRec 10] rfl⟩

/-- C8: the state-passing embeddings show both aggregations are free of
side effects: `process_data` hands back its input sequence unchanged,
and `get_summary` hands back the `DataProcessor` state unchanged. -/
theorem aggregation_has_no_side_effects (R : List Record) (p : DataProcessor) :
    (process_data_st R).2 = R ∧ (p.get_summary_st).2 = p :=
  ⟨rfl, rfl⟩

/-- C9: the held sequence is append-only: `add_item r` turns the held
list into the previous list with r appended at the end, and
`get_summary` (the only other operation) leaves the held list
unchanged, so no operation removes or reorders earlier records. -/
theorem add_item_appends (p : DataProcessor) (r : Record) :
    (p.add_item r).data = p.data ++ [r]
      ∧ (p.get_summary_st).2.data = p.data :=
  ⟨rfl, rfl⟩

/-- C10: under exact rational arithmetic `process_data` is
permutation-invariant: permuting the input records leaves the summary
unchanged. -/
theorem process_data_perm_invariant (R R' : List Record) (h : R.Perm R') :
    process_data R = process_data R' := by
  have hc := h.length_eq
  have ht := (h.map (fun item => item.get "value" 0)).sum_eq
  simp [process_data, hc, ht]

/-- C10 witness: permutation invariance applied to the swap of two
concrete records. -/
theorem process_data_perm_invariant_witness :
    List.Perm [valRec 1, valRec 2] [valRec 2, valRec 1]
      ∧ process_data [valRec 1, valRec 2] = process_data [valRec 2, valRec 1] :=
  ⟨List.Perm.swap (valRec 2) (valRec 1) [],
    process_data_perm_invariant _ _ (List.Perm.swap (valRec 2) (valRec 1) [])⟩
